import Mathlib

/-!
Verification development for the Emochat backend's emotion pipeline.

The definitions below are a shallow embedding of the JavaScript source:
* `src/utils/emotionAPI.js` — classifier adapter (`analyzeEmotion`,
  `mapScoreToEmotion`, `fallbackEmotionAnalysis`);
* `src/models/User.js` — device-token registry (`addFCMToken`) and
  profile history (`addEmotionToHistory`);
* `src/config/firebase.js` — notification dispatcher
  (`sendNotificationToMultiple`);
* `src/routes/emotion.js` — `POST /analyze-with-support`;
* the chat route file — `POST /rooms/:roomId/messages` message pipeline.

Numbers are modelled as exact rationals; `Number.prototype.toFixed(3)`
followed by `parseFloat` is modelled as rounding to 3 decimal places
(half up).  Fallible I/O (document store, FCM, provider) is modelled by
explicit outcome flags threaded through an environment record.

Rational arithmetic is spelled with kernel-reducible wrappers (`q`,
`qadd`, `qmul`, ...) built on `Rat.divInt`, because the library's
`Rat.add`/`Rat.mul` are `@[irreducible]` and would block `decide`-style
evaluation of concrete runs; bridge lemmas identify each wrapper with
the ordinary `ℚ` operation for symbolic reasoning.
-/

namespace Emochat

/-- The exact rational `n / d` (kernel-reducible). -/
def q (n : ℤ) (d : ℕ) : ℚ := Rat.divInt n d

/-- The rational value of a natural count. -/
def qofNat (n : ℕ) : ℚ := Rat.divInt n 1

/-- Kernel-reducible addition on `ℚ`. -/
def qadd (a b : ℚ) : ℚ :=
  Rat.divInt (a.num * b.den + b.num * a.den) ((a.den : ℤ) * (b.den : ℤ))

/-- Kernel-reducible multiplication on `ℚ`. -/
def qmul (a b : ℚ) : ℚ := Rat.divInt (a.num * b.num) ((a.den : ℤ) * (b.den : ℤ))

/-- Kernel-reducible negation on `ℚ`. -/
def qneg (a : ℚ) : ℚ := Rat.divInt (-a.num) a.den

/-- `Math.min` on rationals. -/
def qmin (a b : ℚ) : ℚ := if a ≤ b then a else b

/-- `Math.abs` on rationals. -/
def qabs (a : ℚ) : ℚ := if a < 0 then qneg a else a

theorem q_eq (n : ℤ) (d : ℕ) : q n d = (n : ℚ) / (d : ℚ) := Rat.divInt_eq_div n d

theorem qofNat_eq (n : ℕ) : qofNat n = (n : ℚ) := by
  simp [qofNat, Rat.divInt_eq_div]

theorem qadd_eq (a b : ℚ) : qadd a b = a + b := by
  conv_rhs => rw [← Rat.num_divInt_den a, ← Rat.num_divInt_den b]
  rw [qadd, Rat.divInt_add_divInt _ _ (by exact_mod_cast a.den_nz) (by exact_mod_cast b.den_nz)]

theorem qmul_eq (a b : ℚ) : qmul a b = a * b := by
  conv_rhs => rw [← Rat.num_divInt_den a, ← Rat.num_divInt_den b]
  rw [qmul, Rat.divInt_mul_divInt _ _ (by exact_mod_cast a.den_nz) (by exact_mod_cast b.den_nz)]

theorem qneg_eq (a : ℚ) : qneg a = -a := by
  rw [qneg, ← Rat.neg_divInt, Rat.num_divInt_den]

theorem qmin_eq (a b : ℚ) : qmin a b = min a b := (min_def a b).symm

theorem qabs_eq (a : ℚ) : qabs a = |a| := by
  rw [qabs]
  rcases lt_or_le a 0 with h | h
  · rw [if_pos h, qneg_eq, abs_of_neg h]
  · rw [if_neg (not_lt.2 h), abs_of_nonneg h]

theorem rat_floor_eq (a : ℚ) : a.floor = ⌊a⌋ := by
  rw [Rat.floor_def', Rat.floor_def]

/-- Models `parseFloat(x.toFixed(3))`: round to 3 decimal places, half up. -/
def roundTo3 (x : ℚ) : ℚ :=
  Rat.divInt (qadd (qmul x (q 1000 1)) (q 1 2)).floor 1000

theorem roundTo3_eq (x : ℚ) : roundTo3 x = (⌊x * 1000 + 1/2⌋ : ℚ) / 1000 := by
  rw [roundTo3, qadd_eq, qmul_eq, q_eq, q_eq, rat_floor_eq, Rat.divInt_eq_div]
  norm_num

/-- Result object returned by the classifier adapter
(`analyzeEmotion` / `fallbackEmotionAnalysis` in `src/utils/emotionAPI.js`):
`{emotion, confidence, sentiment: {score, magnitude}, processedBy}`. -/
structure EmotionResult where
  emotion : String
  confidence : ℚ
  score : ℚ
  magnitude : ℚ
  processedBy : String
deriving Repr, DecidableEq

/-- `mapScoreToEmotion(score, magnitude)` from `src/utils/emotionAPI.js`
lines 70-98, translated branch by branch. -/
def mapScoreToEmotion (score magnitude : ℚ) : String :=
  if magnitude < q 3 10 then "neutral"
  else if score > q 3 5 then (if magnitude > q 4 5 then "joy" else "surprise")
  else if score > q 1 5 then "joy"
  else if score > q (-1) 5 then "neutral"
  else if score > q (-3) 5 then (if magnitude > q 7 10 then "sadness" else "fear")
  else (if magnitude > q 4 5 then "anger" else "sadness")

/-- `text.toLowerCase()`, modelled characterwise. -/
def strToLower (s : String) : String := String.mk (s.data.map Char.toLower)

/-- `lowerText.includes(keyword)`: substring containment on the
character sequences of the two strings. -/
def strIncludes (hay kw : String) : Bool :=
  go kw.data hay.data
where
  go (needle : List Char) : List Char → Bool
    | [] => needle.isEmpty
    | c :: rest => needle.isPrefixOf (c :: rest) || go needle rest

/-- The `emotionPatterns` keyword table of `fallbackEmotionAnalysis`
(`src/utils/emotionAPI.js` lines 109-117), in object-literal order. -/
def emotionPatterns : List (String × List String) :=
  [("joy", ["happy", "excited", "great", "awesome", "love", "amazing", "😊", "😃", "🎉", "❤️"]),
   ("sadness", ["sad", "disappointed", "down", "depressed", "crying", "😢", "😭", "💔"]),
   ("anger", ["angry", "mad", "furious", "annoyed", "hate", "frustrated", "😠", "😡", "🤬"]),
   ("fear", ["scared", "afraid", "worried", "anxious", "nervous", "terrified", "😨", "😰"]),
   ("surprise", ["wow", "amazing", "unbelievable", "shocking", "incredible", "😲", "🤯", "😱"]),
   ("disgust", ["disgusting", "gross", "awful", "terrible", "horrible", "🤢", "🤮"]),
   ("neutral", ["okay", "fine", "normal", "regular", "standard"])]

/-- Number of keywords of one pattern contained in the lowercased text:
the `keywords.reduce((count, keyword) => ...)` accumulator. -/
def keywordScore (lowerText : String) (keywords : List String) : Nat :=
  keywords.foldl (fun c kw => c + (if strIncludes lowerText kw then 1 else 0)) 0

/-- The `maxScore` / `detectedEmotion` scan of `fallbackEmotionAnalysis`
(lines 119-131): starts at `(0, "neutral")`, strict improvement only. -/
def fallbackScan (lowerText : String) : Nat × String :=
  emotionPatterns.foldl
    (fun acc p =>
      let s := keywordScore lowerText p.2
      if s > acc.1 then (s, p.1) else acc)
    (0, "neutral")

/-- The raw `sentimentScore` of `fallbackEmotionAnalysis` (lines 138-145):
`0.3 + maxScore*0.2` for positive emotions, `-0.3 - maxScore*0.2` for
negative ones, `0` otherwise. -/
def fallbackSentimentScore (maxScore : Nat) (emotion : String) : ℚ :=
  if maxScore > 0 then
    if emotion = "joy" ∨ emotion = "surprise" then
      qadd (q 3 10) (qmul (qofNat maxScore) (q 2 10))
    else if emotion = "sadness" ∨ emotion = "anger" ∨ emotion = "fear" ∨ emotion = "disgust" then
      qadd (q (-3) 10) (qneg (qmul (qofNat maxScore) (q 2 10)))
    else 0
  else 0

/-- `fallbackEmotionAnalysis(text)` (`src/utils/emotionAPI.js` lines
105-156): keyword scan over the lowercased text, then the derived
confidence / sentiment / magnitude fields. -/
def fallbackEmotionAnalysis (text : String) : EmotionResult :=
  let lowerText := strToLower text
  let scan := fallbackScan lowerText
  let maxScore := scan.1
  let detectedEmotion := scan.2
  { emotion := detectedEmotion
    confidence := if maxScore > 0 then qmin (qmul (qofNat maxScore) (q 3 10)) (q 8 10) else q 1 10
    score := roundTo3 (fallbackSentimentScore maxScore detectedEmotion)
    magnitude := if maxScore > 0 then qmin (qmul (qofNat maxScore) (q 4 10)) (q 1 1) else q 1 10
    processedBy := "local-fallback" }

/-- Outcome of the call to the external Google Cloud NLP provider:
either a document sentiment `(score, magnitude)` or a transport/auth
failure (rejection). -/
inductive ProviderOutcome where
  | available (score magnitude : ℚ)
  | unreachable
deriving Repr, DecidableEq

/-- JavaScript whitespace relevant to `trim()` for the texts considered. -/
def isWhiteChar (c : Char) : Bool := c = ' ' || c = '\t' || c = '\n' || c = '\r'

/-- The input guard of `analyzeEmotion` (line 21): a string input is
invalid iff it is empty after trimming (`text.trim().length === 0`). -/
def validText (text : String) : Bool :=
  ¬ ((text.data.dropWhile isWhiteChar).reverse.dropWhile isWhiteChar = [])

/-- `analyzeEmotion(text)` (`src/utils/emotionAPI.js` lines 19-62) for
string inputs.  The `try` block throws on invalid input or provider
failure; the `catch` swallows either error and returns
`fallbackEmotionAnalysis(text)`, so the adapter always returns a result. -/
def analyzeEmotion (provider : ProviderOutcome) (text : String) : EmotionResult :=
  if validText text then
    match provider with
    | .available s m =>
        { emotion := mapScoreToEmotion s m
          confidence := roundTo3 (qmin (qmul m (qabs s)) (q 1 1))
          score := roundTo3 s
          magnitude := roundTo3 m
          processedBy := "google-cloud-nlp" }
    | .unreachable => fallbackEmotionAnalysis text
  else fallbackEmotionAnalysis text

/-! ### Device registry and emotion profile (`src/models/User.js`) -/

/-- One entry of the `fcmTokens` array of the user schema
(`src/models/User.js` lines 96-118). Timestamps are abstract ticks. -/
structure FCMToken where
  token : String
  deviceType : String
  deviceId : Option String
  isActive : Bool
  lastUsed : Nat
deriving Repr, DecidableEq

/-- `userSchema.methods.addFCMToken` (`src/models/User.js` lines 143-162):
remove entries with the same token value, push a fresh active entry,
keep only the last 5 (`slice(-5)`). -/
def addFCMToken (tokens : List FCMToken) (token deviceType : String)
    (deviceId : Option String) (now : Nat) : List FCMToken :=
  let kept := tokens.filter (fun t => t.token ≠ token)
  let appended := kept ++
    [{ token := token, deviceType := deviceType, deviceId := deviceId,
       isActive := true, lastUsed := now }]
  if appended.length > 5 then appended.drop (appended.length - 5) else appended

/-- `userSchema.methods.getActiveFCMTokens` (lines 169-173). -/
def getActiveFCMTokens (tokens : List FCMToken) : List String :=
  (tokens.filter (fun t => t.isActive)).map (fun t => t.token)

/-- Repeated `addFCMToken` calls for one owner, one call per tick
(later calls get larger `lastUsed` ticks). -/
def addManyFrom (tokens : List FCMToken) (calls : List String) (t : Nat) : List FCMToken :=
  match calls with
  | [] => tokens
  | c :: rest => addManyFrom (addFCMToken tokens c "web" none t) rest (t + 1)

/-- The last `n` elements of a list. -/
def lastN (n : Nat) (l : List String) : List String := l.drop (l.length - n)

/-- One entry of `emotionalProfile.emotionHistory`
(`src/models/User.js` lines 51-58). -/
structure EmotionEntry where
  emotion : String
  confidence : ℚ
  timestamp : Nat
deriving Repr, DecidableEq

/-- `userSchema.methods.addEmotionToHistory` (`src/models/User.js` lines
194-207): push, then `shift()` the oldest entry when over 100. -/
def addEmotionToHistory (history : List EmotionEntry) (emotion : String)
    (confidence : ℚ) (now : Nat) : List EmotionEntry :=
  let pushed := history ++ [{ emotion := emotion, confidence := confidence, timestamp := now }]
  if pushed.length > 100 then pushed.tail else pushed

/-- The `emotionalProfile` subdocument (`src/models/User.js` lines 46-65). -/
structure EmotionalProfile where
  dominantEmotion : String
  averageSentiment : ℚ
  emotionHistory : List EmotionEntry
deriving Repr, DecidableEq

/-- The profile update of `POST /analyze-with-support`
(`src/routes/emotion.js` lines 179-191): history appended when
`confidence > 0.3`; `dominantEmotion` and the `(old+new)/2` sentiment
blend only when `confidence > 0.7`. -/
def applyProfileUpdate (p : EmotionalProfile) (emotion : String)
    (confidence score : ℚ) (now : Nat) : EmotionalProfile :=
  if confidence > q 3 10 then
    let p1 := { p with emotionHistory := addEmotionToHistory p.emotionHistory emotion confidence now }
    if confidence > q 7 10 then
      { p1 with dominantEmotion := emotion,
                averageSentiment := qmul (qadd p1.averageSentiment score) (q 1 2) }
    else p1
  else p

/-! ### Notification dispatcher (`src/config/firebase.js`) -/

/-- Per-token outcome reported by the push provider for one send:
delivered, rejected as unregistered/invalid, or transiently failed. -/
inductive FcmOutcome where
  | success
  | invalidToken
  | transientFailure
deriving Repr, DecidableEq

/-- Return value of `sendNotificationToMultiple`
(`src/config/firebase.js` lines 293-300). -/
structure MulticastResult where
  successCount : Nat
  failureCount : Nat
  responses : List FcmOutcome
  invalidTokens : List String
deriving Repr, DecidableEq

/-- `sendNotificationToMultiple(tokens, ...)` (`src/config/firebase.js`
lines 227-306): throws on an empty or all-falsy token list, otherwise
returns the provider's per-token outcomes with `successCount`,
`failureCount`, and `invalidTokens` = every token whose response was not
a success, whatever the failure kind. -/
def sendNotificationToMultiple (tokens : List String) (outcome : String → FcmOutcome) :
    Except String MulticastResult :=
  if tokens.isEmpty then Except.error "Invalid tokens array provided"
  else
    let validTokens := tokens.filter (fun t => t ≠ "")
    if validTokens.isEmpty then Except.error "No valid tokens provided"
    else
      let responses := validTokens.map outcome
      Except.ok
        { successCount := (responses.filter (fun r => r = FcmOutcome.success)).length
          failureCount := (responses.filter (fun r => r ≠ FcmOutcome.success)).length
          responses := responses
          invalidTokens := (validTokens.zip responses).filterMap
            (fun p => if p.2 ≠ FcmOutcome.success then some p.1 else none) }

/-! ### `POST /rooms/:roomId/messages` — the message pipeline

The chat route runs, in source order: emotion analysis + emotion-record
save + support-notification dispatch (all inside one swallowed `try`),
then `message.save()` and `message.populate(...)` (unprotected), then
emotion-record linking (swallowed `try`), profile-history update
(swallowed `try`), `chatRoom.save()` (unprotected), new-message fanout
(swallowed `try`), then the 201 response.  An unprotected rejection hits
the outer `catch` and produces a 500 response. -/

/-- Stages observable in one run of the chat message pipeline, in the
order they are performed. -/
inductive Ev where
  | received
  | classified
  | emotionStored
  | supportDispatched
  | messageStored
  | linked
  | profileUpdated
  | roomUpdated
  | newMessageDispatched
deriving Repr, DecidableEq

/-- Outcomes of the fallible collaborator calls made by one run of
`POST /rooms/:roomId/messages`.  `activeTokens` is the author's
`getActiveFCMTokens()` result; `otherTokens` the collected tokens of the
other participants with push enabled. -/
structure PipelineEnv where
  provider : ProviderOutcome
  emotionSaveOk : Bool
  userFound : Bool
  activeTokens : List String
  supportSendOk : Bool
  messageSaveOk : Bool
  populateOk : Bool
  linkOk : Bool
  profileUserFound : Bool
  profileSaveOk : Bool
  roomSaveOk : Bool
  otherTokens : List String
  fanoutOk : Bool
deriving Repr, DecidableEq

/-- The request body fields that drive the pipeline. -/
structure SendMessageRequest where
  content : String
  messageType : String
deriving Repr, DecidableEq

/-- What one run of the route produced.  `status` is the HTTP status of
the response (201 or 500 — validation-rejected requests are out of
scope); `messageStored` says whether `message.save()` persisted the
message; `messageEmotion` is the emotion object attached to the stored
message; `events` is the ordered trace of performed stages. -/
structure PipelineResult where
  status : Nat
  messageStored : Bool
  messageEmotion : Option EmotionResult
  supportTriggered : Bool
  supportAttempted : Bool
  supportDelivered : Bool
  historyAppended : Bool
  fanoutDelivered : Bool
  events : List Ev
deriving Repr, DecidableEq

/-- The guard of the emotion block (line 263):
`messageType === 'text' && content && content.trim().length > 0`. -/
def analyzesText (req : SendMessageRequest) : Bool :=
  req.messageType == "text" && validText req.content

/-- The `emotionData` value after the emotion block: set whenever the
guard held (it survives an emotion-record save failure because it is
assigned before the `await emotionRecord.save()`). -/
def pipelineEmotion (env : PipelineEnv) (req : SendMessageRequest) : Option EmotionResult :=
  if analyzesText req then some (analyzeEmotion env.provider req.content) else none

/-- Whether the emotion record was persisted (line 281). -/
def emotionStoredB (env : PipelineEnv) (req : SendMessageRequest) : Bool :=
  analyzesText req && env.emotionSaveOk

/-- Whether the support branch `emotionData.sentiment.score <= -0.6`
(line 284) was taken; it is only reached when the emotion record saved. -/
def supportTriggeredB (env : PipelineEnv) (req : SendMessageRequest) : Bool :=
  emotionStoredB env req &&
    (match pipelineEmotion env req with
     | some ed => decide (ed.score ≤ q (-3) 5)
     | none => false)

/-- Whether the support `sendNotificationToMultiple` call was made
(lines 286-294: author found and has at least one active token). -/
def supportAttemptedB (env : PipelineEnv) (req : SendMessageRequest) : Bool :=
  supportTriggeredB env req && env.userFound && !env.activeTokens.isEmpty

/-- Whether the user's emotion history was appended (lines 381-391):
gate `emotionData.confidence > 0.5`, then the swallowed lookup + save. -/
def historyAppendedB (env : PipelineEnv) (req : SendMessageRequest) : Bool :=
  (match pipelineEmotion env req with
   | some ed => decide (ed.confidence > q 1 2)
   | none => false) && env.profileUserFound && env.profileSaveOk

/-- One run of `POST /rooms/:roomId/messages` (chat route, lines
227-509), for requests that pass validation and room-membership checks. -/
def sendMessagePipeline (env : PipelineEnv) (req : SendMessageRequest) : PipelineResult :=
  let emotionData := pipelineEmotion env req
  let preEvents :=
    [Ev.received]
    ++ (if analyzesText req then [Ev.classified] else [])
    ++ (if emotionStoredB env req then [Ev.emotionStored] else [])
    ++ (if supportAttemptedB env req then [Ev.supportDispatched] else [])
  let supportDelivered := supportAttemptedB env req && env.supportSendOk
  if !env.messageSaveOk then
    { status := 500, messageStored := false, messageEmotion := none
      supportTriggered := supportTriggeredB env req
      supportAttempted := supportAttemptedB env req
      supportDelivered := supportDelivered
      historyAppended := false, fanoutDelivered := false
      events := preEvents }
  else if !env.populateOk then
    { status := 500, messageStored := true, messageEmotion := emotionData
      supportTriggered := supportTriggeredB env req
      supportAttempted := supportAttemptedB env req
      supportDelivered := supportDelivered
      historyAppended := false, fanoutDelivered := false
      events := preEvents ++ [Ev.messageStored] }
  else
    let linkedB := emotionData.isSome && env.linkOk
    let events2 := preEvents ++ [Ev.messageStored]
      ++ (if linkedB then [Ev.linked] else [])
      ++ (if historyAppendedB env req then [Ev.profileUpdated] else [])
    if !env.roomSaveOk then
      { status := 500, messageStored := true, messageEmotion := emotionData
        supportTriggered := supportTriggeredB env req
        supportAttempted := supportAttemptedB env req
        supportDelivered := supportDelivered
        historyAppended := historyAppendedB env req, fanoutDelivered := false
        events := events2 }
    else
      { status := 201, messageStored := true, messageEmotion := emotionData
        supportTriggered := supportTriggeredB env req
        supportAttempted := supportAttemptedB env req
        supportDelivered := supportDelivered
        historyAppended := historyAppendedB env req
        fanoutDelivered := !env.otherTokens.isEmpty && env.fanoutOk
        events := events2 ++ [Ev.roomUpdated]
          ++ (if !env.otherTokens.isEmpty then [Ev.newMessageDispatched] else []) }

/-- The stage order of the chat pipeline as implemented: support
dispatch sits between emotion-record persistence and message
persistence; linking, profile update, room update and the new-message
fanout all come after the message is stored. -/
def canonicalEventOrder : List Ev :=
  [Ev.received, Ev.classified, Ev.emotionStored, Ev.supportDispatched, Ev.messageStored,
   Ev.linked, Ev.profileUpdated, Ev.roomUpdated, Ev.newMessageDispatched]

/-- Index of the first occurrence of an event in a trace (length of the
trace when absent). -/
def firstIdx (l : List Ev) (e : Ev) : Nat :=
  match l with
  | [] => 0
  | x :: rest => if x = e then 0 else 1 + firstIdx rest e

/-! ### `POST /analyze-with-support` (`src/routes/emotion.js`) -/

/-- Observable outcome of one `POST /analyze-with-support` run. -/
structure AnalyzeSupportResult where
  triggered : Bool
  notificationAttempted : Bool
  profile : EmotionalProfile
deriving Repr, DecidableEq

/-- One run of `POST /analyze-with-support` (`src/routes/emotion.js`
lines 64-242).  `none` models the non-2xx paths: the 400 validation
rejection of empty text and the 500 from an `emotionRecord.save()`
rejection (line 108, unprotected).  Once the record is saved, the
support trigger check `sentimentScore <= -0.6` runs, the notification is
attempted only when the author is found with at least one active token,
and the profile is updated through the `> 0.3` / `> 0.7` gates. -/
def analyzeWithSupport (provider : ProviderOutcome) (text : String)
    (recordSaveOk userFound : Bool) (activeTokens : List String)
    (profileUserFound : Bool) (profile : EmotionalProfile) (now : Nat) :
    Option AnalyzeSupportResult :=
  if text = "" then none
  else if !recordSaveOk then none
  else
    let analysis := analyzeEmotion provider text
    let triggered := decide (analysis.score ≤ q (-3) 5)
    some
      { triggered := triggered
        notificationAttempted := triggered && userFound && !activeTokens.isEmpty
        profile :=
          if profileUserFound then
            applyProfileUpdate profile analysis.emotion analysis.confidence analysis.score now
          else profile }

/-! ### Theorems -/

/-- C9: for any input with `magnitude < 0.3` the classifier maps to
`neutral` regardless of score; otherwise the pinned score bands decide
the label with magnitude as tie-break: `score > 0.6` yields `joy` when
`magnitude > 0.8` else `surprise`; `0.2 < score ≤ 0.6` yields `joy`;
`-0.2 < score ≤ 0.2` yields `neutral`; `-0.6 < score ≤ -0.2` yields
`sadness` when `magnitude > 0.7` else `fear`; `score ≤ -0.6` yields
`anger` when `magnitude > 0.8` else `sadness`. -/
theorem mapScoreToEmotion_bands (s m : ℚ) :
    (m < q 3 10 → mapScoreToEmotion s m = "neutral")
    ∧ (q 3 10 ≤ m →
        (q 3 5 < s →
          (q 4 5 < m → mapScoreToEmotion s m = "joy")
          ∧ (m ≤ q 4 5 → mapScoreToEmotion s m = "surprise"))
        ∧ (q 1 5 < s → s ≤ q 3 5 → mapScoreToEmotion s m = "joy")
        ∧ (q (-1) 5 < s → s ≤ q 1 5 → mapScoreToEmotion s m = "neutral")
        ∧ (q (-3) 5 < s → s ≤ q (-1) 5 →
          (q 7 10 < m → mapScoreToEmotion s m = "sadness")
          ∧ (m ≤ q 7 10 → mapScoreToEmotion s m = "fear"))
        ∧ (s ≤ q (-3) 5 →
          (q 4 5 < m → mapScoreToEmotion s m = "anger")
          ∧ (m ≤ q 4 5 → mapScoreToEmotion s m = "sadness"))) := by
  constructor
  · intro h
    simp only [mapScoreToEmotion, if_pos h]
  · intro hm
    have hm' := not_lt.2 hm
    refine ⟨fun hs => ⟨fun h4 => ?_, fun h4 => ?_⟩,
            fun hs1 hs2 => ?_, fun hs1 hs2 => ?_,
            fun hs1 hs2 => ⟨fun h7 => ?_, fun h7 => ?_⟩,
            fun hs => ⟨fun h4 => ?_, fun h4 => ?_⟩⟩ <;>
      simp only [mapScoreToEmotion, gt_iff_lt]
    · rw [if_neg hm', if_pos hs, if_pos h4]
    · rw [if_neg hm', if_pos hs, if_neg (not_lt.2 h4)]
    · rw [if_neg hm', if_neg (not_lt.2 hs2), if_pos hs1]
    · rw [if_neg hm', if_neg (not_lt.2 (hs2.trans (by decide))),
          if_neg (not_lt.2 hs2), if_pos hs1]
    · rw [if_neg hm', if_neg (not_lt.2 (hs2.trans (by decide))),
          if_neg (not_lt.2 (hs2.trans (by decide))), if_neg (not_lt.2 hs2),
          if_pos hs1, if_pos h7]
    · rw [if_neg hm', if_neg (not_lt.2 (hs2.trans (by decide))),
          if_neg (not_lt.2 (hs2.trans (by decide))), if_neg (not_lt.2 hs2),
          if_pos hs1, if_neg (not_lt.2 h7)]
    · rw [if_neg hm', if_neg (not_lt.2 (hs.trans (by decide))),
          if_neg (not_lt.2 (hs.trans (by decide))), if_neg (not_lt.2 (hs.trans (by decide))),
          if_neg (not_lt.2 hs), if_pos h4]
    · rw [if_neg hm', if_neg (not_lt.2 (hs.trans (by decide))),
          if_neg (not_lt.2 (hs.trans (by decide))), if_neg (not_lt.2 (hs.trans (by decide))),
          if_neg (not_lt.2 hs), if_neg (not_lt.2 h4)]

/-- Witness for `mapScoreToEmotion_bands` at concrete band points. -/
theorem mapScoreToEmotion_bands_witness :
    mapScoreToEmotion (q 1 2) (q 1 5) = "neutral"
    ∧ mapScoreToEmotion (q (-1) 2) (q 4 5) = "sadness"
    ∧ mapScoreToEmotion (q (-7) 10) (q 9 10) = "anger" := by
  refine ⟨(mapScoreToEmotion_bands (q 1 2) (q 1 5)).1 (by decide), ?_, ?_⟩
  · exact (((mapScoreToEmotion_bands (q (-1) 2) (q 4 5)).2 (by decide)).2.2.2.1
      (by decide) (by decide)).1 (by decide)
  · exact (((mapScoreToEmotion_bands (q (-7) 10) (q 9 10)).2 (by decide)).2.2.2.2
      (by decide)).1 (by decide)

/-- Helper: the `supportTriggered` field of the pipeline result is the
pre-save support branch condition, whatever the later stages did. -/
theorem pipeline_supportTriggered_eq (env : PipelineEnv) (req : SendMessageRequest) :
    (sendMessagePipeline env req).supportTriggered = supportTriggeredB env req := by
  cases hm : env.messageSaveOk <;> cases hp : env.populateOk <;> cases hr : env.roomSaveOk <;>
    simp [sendMessagePipeline, hm, hp, hr]

/-- C1: a sample analyzed in the chat pipeline (text message, emotion
record saved) enters the support-notification path iff its classified
`sentimentScore ≤ -0.6`, boundary inclusive; and the
`/analyze-with-support` route reports `triggered` under exactly the same
rule. -/
theorem support_trigger_boundary :
    (∀ (env : PipelineEnv) (req : SendMessageRequest),
      req.messageType = "text" → validText req.content = true → env.emotionSaveOk = true →
      ((sendMessagePipeline env req).supportTriggered = true ↔
        (analyzeEmotion env.provider req.content).score ≤ q (-3) 5))
    ∧ (∀ (provider : ProviderOutcome) (text : String) (userFound : Bool)
        (activeTokens : List String) (profileUserFound : Bool)
        (profile : EmotionalProfile) (now : Nat),
        text ≠ "" →
        ((analyzeWithSupport provider text true userFound activeTokens
            profileUserFound profile now).map AnalyzeSupportResult.triggered = some true ↔
          (analyzeEmotion provider text).score ≤ q (-3) 5)) := by
  constructor
  · intro env req hT hC hS
    rw [pipeline_supportTriggered_eq]
    simp [supportTriggeredB, emotionStoredB, analyzesText, pipelineEmotion, hT, hC, hS]
  · intro provider text uF tks pF prof now h
    simp [analyzeWithSupport, if_neg h]

/-- Witness for `support_trigger_boundary`: a text message classified at
exactly the `-0.6` boundary triggers; one at `-0.59` does not. -/
theorem support_trigger_boundary_witness :
    ((sendMessagePipeline
        ⟨ProviderOutcome.available (q (-3) 5) (q 1 1), true, true, ["t1"], true,
         true, true, true, true, true, true, [], true⟩
        ⟨"feeling low", "text"⟩).supportTriggered = true)
    ∧ ((sendMessagePipeline
        ⟨ProviderOutcome.available (q (-59) 100) (q 1 1), true, true, ["t1"], true,
         true, true, true, true, true, true, [], true⟩
        ⟨"feeling low", "text"⟩).supportTriggered = false) := by
  constructor
  · exact (support_trigger_boundary.1 _ _ rfl (by decide) rfl).mpr (by decide)
  · have h := support_trigger_boundary.1
      ⟨ProviderOutcome.available (q (-59) 100) (q 1 1), true, true, ["t1"], true,
       true, true, true, true, true, true, [], true⟩
      ⟨"feeling low", "text"⟩ rfl (by decide) rfl
    by_contra hc
    exact absurd (h.mp (by revert hc; decide)) (by decide)

/-- C2 counterexample: a run in which the message is durably stored but
the unprotected `chatRoom.save()` (line 396) rejects: the caller
receives a 500 failure response even though the message was stored, so
"stored implies success response" is false as stated. -/
theorem message_send_isolation_counterexample :
    ((sendMessagePipeline
        ⟨ProviderOutcome.available (q 1 2) (q 1 1), true, true, ["t1"], true,
         true, true, true, true, true, false, ["t2"], true⟩
        ⟨"hello", "text"⟩).messageStored = true)
    ∧ ((sendMessagePipeline
        ⟨ProviderOutcome.available (q 1 2) (q 1 1), true, true, ["t1"], true,
         true, true, true, true, true, false, ["t2"], true⟩
        ⟨"hello", "text"⟩).status = 500) := by
  constructor <;> decide

/-- C2 as amended: once the message is stored, failures of emotion
classification, emotion-record persistence, profile-history update,
support dispatch and new-message dispatch are all swallowed and the
sender still receives the 201 success — provided the two unprotected
post-store steps (`message.populate` and the `chatRoom.save()`
room-metadata update) also succeed; a rejection of either of those
surfaces as a 500 despite the message being stored. -/
theorem message_send_isolation :
    ∀ (env : PipelineEnv) (req : SendMessageRequest),
      env.messageSaveOk = true → env.populateOk = true → env.roomSaveOk = true →
      (sendMessagePipeline env req).status = 201
      ∧ (sendMessagePipeline env req).messageStored = true := by
  intro env req hm hp hr
  unfold sendMessagePipeline
  simp [hm, hp, hr]

/-- Witness for `message_send_isolation`: every listed downstream stage
fails (provider unreachable, emotion save, link, profile, support send,
fanout all rejected) yet the sender sees 201 with the message stored. -/
theorem message_send_isolation_witness :
    (sendMessagePipeline
        ⟨ProviderOutcome.unreachable, false, false, [], false,
         true, true, false, false, false, true, ["t2"], false⟩
        ⟨"hello", "text"⟩).status = 201
    ∧ (sendMessagePipeline
        ⟨ProviderOutcome.unreachable, false, false, [], false,
         true, true, false, false, false, true, ["t2"], false⟩
        ⟨"hello", "text"⟩).messageStored = true :=
  message_send_isolation _ _ rfl rfl rfl

/-- Helper: the event trace of one pipeline run, written as one nested
concatenation of conditional blocks. -/
theorem pipeline_events_eq (env : PipelineEnv) (req : SendMessageRequest) :
    (sendMessagePipeline env req).events =
      [Ev.received]
      ++ (if analyzesText req then [Ev.classified] else [])
      ++ (if emotionStoredB env req then [Ev.emotionStored] else [])
      ++ (if supportAttemptedB env req then [Ev.supportDispatched] else [])
      ++ (if env.messageSaveOk then
            [Ev.messageStored]
            ++ (if env.populateOk then
                  (if (pipelineEmotion env req).isSome && env.linkOk then [Ev.linked] else [])
                  ++ (if historyAppendedB env req then [Ev.profileUpdated] else [])
                  ++ (if env.roomSaveOk then
                        [Ev.roomUpdated]
                        ++ (if !env.otherTokens.isEmpty then [Ev.newMessageDispatched] else [])
                      else [])
                else [])
          else []) := by
  cases hm : env.messageSaveOk <;> cases hp : env.populateOk <;> cases hr : env.roomSaveOk <;>
    simp [sendMessagePipeline, hm, hp, hr, List.append_assoc]

/-- C7 as amended: the chat pipeline performs its stages in the fixed
order Received → Classified → Stored(EmotionSample) →
Dispatched(support) → message persisted → Linked → Aggregated(profile) →
room updated → Dispatched(new-message): every run's trace is a sublist
of that order.  In particular the support dispatch is performed before —
not after — the message is persisted and the sample is linked. -/
theorem pipeline_stage_order (env : PipelineEnv) (req : SendMessageRequest) :
    (sendMessagePipeline env req).events.Sublist canonicalEventOrder := by
  rw [pipeline_events_eq]
  cases h1 : analyzesText req <;>
    cases h2 : emotionStoredB env req <;>
    cases h3 : supportAttemptedB env req <;>
    cases h4 : env.messageSaveOk <;>
    cases h5 : env.populateOk <;>
    cases h6 : (pipelineEmotion env req).isSome && env.linkOk <;>
    cases h7 : historyAppendedB env req <;>
    cases h8 : env.roomSaveOk <;>
    cases h9 : env.otherTokens.isEmpty <;>
    decide

/-- C7 counterexample: a concrete successful run in which the support
dispatch happens strictly before the message is persisted and before
the emotion sample is linked, refuting "dispatch only after stored and
linked".  The full trace is listed explicitly. -/
theorem pipeline_stage_order_counterexample :
    ((sendMessagePipeline
        ⟨ProviderOutcome.available (q (-7) 10) (q 1 1), true, true, ["t1"], true,
         true, true, true, true, true, true, ["t2"], true⟩
        ⟨"x", "text"⟩).events =
      [Ev.received, Ev.classified, Ev.emotionStored, Ev.supportDispatched, Ev.messageStored,
       Ev.linked, Ev.profileUpdated, Ev.roomUpdated, Ev.newMessageDispatched])
    ∧ (firstIdx (sendMessagePipeline
        ⟨ProviderOutcome.available (q (-7) 10) (q 1 1), true, true, ["t1"], true,
         true, true, true, true, true, true, ["t2"], true⟩
        ⟨"x", "text"⟩).events Ev.supportDispatched
      < firstIdx (sendMessagePipeline
        ⟨ProviderOutcome.available (q (-7) 10) (q 1 1), true, true, ["t1"], true,
         true, true, true, true, true, true, ["t2"], true⟩
        ⟨"x", "text"⟩).events Ev.messageStored)
    ∧ (firstIdx (sendMessagePipeline
        ⟨ProviderOutcome.available (q (-7) 10) (q 1 1), true, true, ["t1"], true,
         true, true, true, true, true, true, ["t2"], true⟩
        ⟨"x", "text"⟩).events Ev.supportDispatched
      < firstIdx (sendMessagePipeline
        ⟨ProviderOutcome.available (q (-7) 10) (q 1 1), true, true, ["t1"], true,
         true, true, true, true, true, true, ["t2"], true⟩
        ⟨"x", "text"⟩).events Ev.linked) := by
  refine ⟨by decide, by decide, by decide⟩

/-- C10: a message whose type is not `text` or whose content is
whitespace-only skips classification entirely: no emotion sample is
stored, the support path cannot fire, no classification/persistence/
support-dispatch event appears in the trace — and the message is still
stored with a null emotion field, responding 201 when the three
unprotected saves succeed. -/
theorem non_text_skips_classification (env : PipelineEnv) (req : SendMessageRequest)
    (h : analyzesText req = false) :
    (sendMessagePipeline env req).messageEmotion = none
    ∧ (sendMessagePipeline env req).supportTriggered = false
    ∧ (sendMessagePipeline env req).supportAttempted = false
    ∧ Ev.classified ∉ (sendMessagePipeline env req).events
    ∧ Ev.emotionStored ∉ (sendMessagePipeline env req).events
    ∧ Ev.supportDispatched ∉ (sendMessagePipeline env req).events
    ∧ (env.messageSaveOk = true → (sendMessagePipeline env req).messageStored = true)
    ∧ (env.messageSaveOk = true → env.populateOk = true → env.roomSaveOk = true →
        (sendMessagePipeline env req).status = 201) := by
  have hE : pipelineEmotion env req = none := by simp [pipelineEmotion, h]
  have hS : emotionStoredB env req = false := by simp [emotionStoredB, h]
  have hT : supportTriggeredB env req = false := by simp [supportTriggeredB, hS]
  have hA : supportAttemptedB env req = false := by simp [supportAttemptedB, hT]
  have hH : historyAppendedB env req = false := by simp [historyAppendedB, hE]
  cases hm : env.messageSaveOk <;> cases hp : env.populateOk <;> cases hr : env.roomSaveOk <;>
    simp [sendMessagePipeline, h, hE, hS, hT, hA, hH, hm, hp, hr]

/-- Witness for `non_text_skips_classification`: an image message in a
fully healthy run is stored with no emotion and no support dispatch. -/
theorem non_text_skips_classification_witness :
    (sendMessagePipeline
        ⟨ProviderOutcome.available (q (-9) 10) (q 1 1), true, true, ["t1"], true,
         true, true, true, true, true, true, ["t2"], true⟩
        ⟨"a photo", "image"⟩).messageEmotion = none
    ∧ (sendMessagePipeline
        ⟨ProviderOutcome.available (q (-9) 10) (q 1 1), true, true, ["t1"], true,
         true, true, true, true, true, true, ["t2"], true⟩
        ⟨"a photo", "image"⟩).status = 201 := by
  have h := non_text_skips_classification
    ⟨ProviderOutcome.available (q (-9) 10) (q 1 1), true, true, ["t1"], true,
     true, true, true, true, true, true, ["t2"], true⟩
    ⟨"a photo", "image"⟩ (by decide)
  exact ⟨h.1, h.2.2.2.2.2.2.2 rfl rfl rfl⟩

/-- C4 as amended: for tokens `[A, B]` with A deliverable and B failing,
`sendNotificationToMultiple` does not throw and returns
`successCount = 1`, `failureCount = 1` with B listed in `invalidTokens`
— but `invalidTokens` collects every failed token whatever the failure
kind, so an invalid-token outcome is not classified distinctly from a
transient failure on the multicast path (only the single-token
`sendNotification` distinguishes them via its `INVALID_TOKEN` errors). -/
theorem dispatcher_partial_failure (outcome : String → FcmOutcome)
    (hA : outcome "A" = FcmOutcome.success) (hB : outcome "B" ≠ FcmOutcome.success) :
    sendNotificationToMultiple ["A", "B"] outcome =
      Except.ok
        { successCount := 1, failureCount := 1,
          responses := [FcmOutcome.success, outcome "B"], invalidTokens := ["B"] } := by
  rcases hO : outcome "B" with _ | _ | _
  · exact absurd hO hB
  · simp [sendNotificationToMultiple, hA, hO, List.filter]
  · simp [sendNotificationToMultiple, hA, hO, List.filter]

/-- Witness for `dispatcher_partial_failure` with B invalid. -/
theorem dispatcher_partial_failure_witness :
    sendNotificationToMultiple ["A", "B"]
        (fun t => if t = "B" then FcmOutcome.invalidToken else FcmOutcome.success) =
      Except.ok
        { successCount := 1, failureCount := 1,
          responses := [FcmOutcome.success, FcmOutcome.invalidToken],
          invalidTokens := ["B"] } := by
  have h := dispatcher_partial_failure
    (fun t => if t = "B" then FcmOutcome.invalidToken else FcmOutcome.success)
    (by decide) (by decide)
  simpa using h

/-- C4 counterexample: the dispatcher classifies a transiently failing B
exactly like an invalid B — both land in `invalidTokens` — so the
per-token outcome for B is not classified distinctly from a transient
failure (and callers deactivate transiently failing tokens). -/
theorem dispatcher_classification_counterexample :
    ((sendNotificationToMultiple ["A", "B"]
        (fun t => if t = "B" then FcmOutcome.transientFailure else FcmOutcome.success)).toOption.map
      MulticastResult.invalidTokens = some ["B"])
    ∧ ((sendNotificationToMultiple ["A", "B"]
        (fun t => if t = "B" then FcmOutcome.invalidToken else FcmOutcome.success)).toOption.map
      MulticastResult.invalidTokens = some ["B"]) := by
  constructor <;> decide

/-- Helper: a left fold whose step either keeps the second component or
replaces it with the pair's label ends with the initial label or a label
from the list. -/
theorem foldl_snd_mem {f : Nat × String → String × List String → Nat × String}
    (hf : ∀ acc p, (f acc p).2 = acc.2 ∨ (f acc p).2 = p.1) :
    ∀ (l : List (String × List String)) (acc : Nat × String),
      (l.foldl f acc).2 = acc.2 ∨ (l.foldl f acc).2 ∈ l.map Prod.fst := by
  intro l
  induction l with
  | nil => intro acc; exact Or.inl rfl
  | cons p rest ih =>
    intro acc
    simp only [List.foldl_cons, List.map_cons, List.mem_cons]
    rcases ih (f acc p) with h | h
    · rcases hf acc p with h2 | h2
      · exact Or.inl (h.trans h2)
      · exact Or.inr (Or.inl (h.trans h2))
    · exact Or.inr (Or.inr h)

/-- Helper: the fallback scan always lands on one of the seven labels. -/
theorem fallbackScan_emotion_mem (t : String) :
    (fallbackScan t).2 ∈ ["neutral", "joy", "sadness", "anger", "fear", "surprise", "disgust"] := by
  have hfs : fallbackScan t = emotionPatterns.foldl
      (fun acc p => if keywordScore t p.2 > acc.1 then (keywordScore t p.2, p.1) else acc)
      (0, "neutral") := rfl
  have h := foldl_snd_mem
    (f := fun acc p => if keywordScore t p.2 > acc.1 then (keywordScore t p.2, p.1) else acc)
    (by
      intro acc p
      by_cases h : keywordScore t p.2 > acc.1 <;> simp [h])
    emotionPatterns (0, "neutral")
  rw [← hfs] at h
  rcases h with h | h
  · rw [h]; decide
  · have hm : emotionPatterns.map Prod.fst =
        ["joy", "sadness", "anger", "fear", "surprise", "disgust", "neutral"] := rfl
    rw [hm] at h
    simp only [List.mem_cons, List.not_mem_nil, or_false] at h ⊢
    tauto

/-- Helper: field equations of `fallbackEmotionAnalysis`. -/
theorem fallback_confidence_eq (text : String) :
    (fallbackEmotionAnalysis text).confidence =
      (if (fallbackScan (strToLower text)).1 > 0 then
        qmin (qmul (qofNat (fallbackScan (strToLower text)).1) (q 3 10)) (q 8 10)
      else q 1 10) := rfl

theorem fallback_magnitude_eq (text : String) :
    (fallbackEmotionAnalysis text).magnitude =
      (if (fallbackScan (strToLower text)).1 > 0 then
        qmin (qmul (qofNat (fallbackScan (strToLower text)).1) (q 4 10)) (q 1 1)
      else q 1 10) := rfl

theorem fallback_score_eq (text : String) :
    (fallbackEmotionAnalysis text).score =
      roundTo3 (fallbackSentimentScore (fallbackScan (strToLower text)).1
        (fallbackScan (strToLower text)).2) := rfl

/-- Helper: fallback confidence is within `[0, 1]`. -/
theorem fallback_confidence_bounds (text : String) :
    0 ≤ (fallbackEmotionAnalysis text).confidence
    ∧ (fallbackEmotionAnalysis text).confidence ≤ 1 := by
  rw [fallback_confidence_eq]
  by_cases hk : (fallbackScan (strToLower text)).1 > 0
  · rw [if_pos hk]
    rw [qmin_eq, qmul_eq, qofNat_eq, q_eq, q_eq]
    constructor
    · exact le_min (by positivity) (by norm_num)
    · exact (min_le_right _ _).trans (by norm_num)
  · rw [if_neg hk, q_eq]
    norm_num

/-- Helper: fallback magnitude is strictly positive. -/
theorem fallback_magnitude_pos (text : String) :
    0 < (fallbackEmotionAnalysis text).magnitude := by
  rw [fallback_magnitude_eq]
  by_cases hk : (fallbackScan (strToLower text)).1 > 0
  · rw [if_pos hk, qmin_eq, qmul_eq, qofNat_eq, q_eq, q_eq]
    apply lt_min
    · have : (1 : ℚ) ≤ ((fallbackScan (strToLower text)).1 : ℚ) := by exact_mod_cast hk
      nlinarith
    · norm_num
  · rw [if_neg hk, q_eq]
    norm_num

/-- Helper: `analyzeEmotion` with an unreachable provider is exactly the
local fallback (the input-validation throw and the provider failure land
in the same `catch`). -/
theorem analyzeEmotion_unreachable (text : String) :
    analyzeEmotion ProviderOutcome.unreachable text = fallbackEmotionAnalysis text := by
  unfold analyzeEmotion
  split <;> rfl

/-- C3: the classifier adapter never raises for a non-empty input — it
is a total function on strings — and when the primary provider is
unreachable it returns the local fallback result tagged
`processedBy = 'local-fallback'`, with every field populated: a label
from the seven-emotion set, confidence in `[0, 1]` and positive
magnitude. -/
theorem classifier_fallback_total (text : String) (h : validText text = true) :
    (analyzeEmotion ProviderOutcome.unreachable text).processedBy = "local-fallback"
    ∧ (analyzeEmotion ProviderOutcome.unreachable text).emotion ∈
        ["neutral", "joy", "sadness", "anger", "fear", "surprise", "disgust"]
    ∧ 0 ≤ (analyzeEmotion ProviderOutcome.unreachable text).confidence
    ∧ (analyzeEmotion ProviderOutcome.unreachable text).confidence ≤ 1
    ∧ 0 < (analyzeEmotion ProviderOutcome.unreachable text).magnitude := by
  rw [analyzeEmotion_unreachable]
  exact ⟨rfl, fallbackScan_emotion_mem _, (fallback_confidence_bounds text).1,
    (fallback_confidence_bounds text).2, fallback_magnitude_pos text⟩

/-- Witness for `classifier_fallback_total` on a concrete message. -/
theorem classifier_fallback_total_witness :
    validText "hello" = true
    ∧ (analyzeEmotion ProviderOutcome.unreachable "hello").processedBy = "local-fallback" :=
  ⟨by decide, (classifier_fallback_total "hello" (by decide)).1⟩

/-- Helper: rounding to 3 decimals preserves a lower bound of `-1`. -/
theorem roundTo3_neg_one_le {x : ℚ} (h : -1 ≤ x) : -1 ≤ roundTo3 x := by
  rw [roundTo3_eq]
  have h0 : ⌊(-1999 : ℚ)/2⌋ = -1000 := by
    rw [Int.floor_eq_iff] <;> norm_num
  have h1 : (-1000 : ℤ) ≤ ⌊x * 1000 + 1/2⌋ := by
    rw [← h0]
    exact Int.floor_le_floor (by linarith)
  have h2 : ((-1000 : ℤ) : ℚ) ≤ ((⌊x * 1000 + 1/2⌋ : ℤ) : ℚ) := by exact_mod_cast h1
  rw [le_div_iff (by norm_num : (0:ℚ) < 1000)]
  push_cast at h2 ⊢
  linarith

/-- Helper: rounding to 3 decimals preserves an upper bound of `1`. -/
theorem roundTo3_le_one {x : ℚ} (h : x ≤ 1) : roundTo3 x ≤ 1 := by
  rw [roundTo3_eq]
  have h0 : ⌊(2001 : ℚ)/2⌋ = 1000 := by
    rw [Int.floor_eq_iff] <;> norm_num
  have h1 : ⌊x * 1000 + 1/2⌋ ≤ 1000 := by
    rw [← h0]
    exact Int.floor_le_floor (by linarith)
  have h2 : ((⌊x * 1000 + 1/2⌋ : ℤ) : ℚ) ≤ ((1000 : ℤ) : ℚ) := by exact_mod_cast h1
  rw [div_le_one (by norm_num : (0:ℚ) < 1000)]
  push_cast at h2 ⊢
  linarith

/-- Helper: rounding to 3 decimals preserves nonnegativity. -/
theorem roundTo3_nonneg {x : ℚ} (h : 0 ≤ x) : 0 ≤ roundTo3 x := by
  rw [roundTo3_eq]
  have h0 : ⌊(1 : ℚ)/2⌋ = 0 := by
    rw [Int.floor_eq_iff] <;> norm_num
  have h1 : (0 : ℤ) ≤ ⌊x * 1000 + 1/2⌋ := by
    rw [← h0]
    exact Int.floor_le_floor (by linarith)
  have h2 : ((0 : ℤ) : ℚ) ≤ ((⌊x * 1000 + 1/2⌋ : ℤ) : ℚ) := by exact_mod_cast h1
  push_cast at h2
  positivity

/-- Helper: the raw fallback sentiment value is within `[-1, 1]` as long
as at most 3 keywords of the winning category matched. -/
theorem fallbackSentimentScore_bounds (k : Nat) (e : String) (hk : k ≤ 3) :
    -1 ≤ fallbackSentimentScore k e ∧ fallbackSentimentScore k e ≤ 1 := by
  have hkq : ((k : ℚ)) ≤ 3 := by exact_mod_cast hk
  have hk0 : (0 : ℚ) ≤ (k : ℚ) := by positivity
  unfold fallbackSentimentScore
  split
  · split
    · rw [qadd_eq, qmul_eq, qofNat_eq, q_eq, q_eq]
      constructor <;> [nlinarith; nlinarith]
    · split
      · rw [qadd_eq, qneg_eq, qmul_eq, qofNat_eq, q_eq, q_eq]
        constructor <;> [nlinarith; nlinarith]
      · norm_num
  · norm_num

/-- C5 as amended: on the primary path, given provider output within its
documented ranges (`score ∈ [-1,1]`, `magnitude ≥ 0`), the returned
`sentimentScore` stays in `[-1, 1]`, `magnitude ≥ 0` and
`confidence ∈ [0, 1]`; on the fallback path `magnitude > 0` and
`confidence ∈ [0, 1]` always hold, and `sentimentScore ∈ [-1, 1]` holds
whenever at most 3 keywords of the winning category match — but the
adapter does not clamp, and the fallback score `±(0.3 + 0.2·k)` leaves
the documented range once `k ≥ 4` keywords match (see the
counterexample). -/
theorem classifier_range_invariants :
    (∀ (s m : ℚ) (text : String), -1 ≤ s → s ≤ 1 → 0 ≤ m → validText text = true →
      -1 ≤ (analyzeEmotion (ProviderOutcome.available s m) text).score
      ∧ (analyzeEmotion (ProviderOutcome.available s m) text).score ≤ 1
      ∧ 0 ≤ (analyzeEmotion (ProviderOutcome.available s m) text).magnitude
      ∧ 0 ≤ (analyzeEmotion (ProviderOutcome.available s m) text).confidence
      ∧ (analyzeEmotion (ProviderOutcome.available s m) text).confidence ≤ 1)
    ∧ (∀ text : String,
      0 < (fallbackEmotionAnalysis text).magnitude
      ∧ 0 ≤ (fallbackEmotionAnalysis text).confidence
      ∧ (fallbackEmotionAnalysis text).confidence ≤ 1
      ∧ ((fallbackScan (strToLower text)).1 ≤ 3 →
          -1 ≤ (fallbackEmotionAnalysis text).score
          ∧ (fallbackEmotionAnalysis text).score ≤ 1)) := by
  constructor
  · intro s m text hs1 hs2 hm hv
    have hval : analyzeEmotion (ProviderOutcome.available s m) text =
        { emotion := mapScoreToEmotion s m
          confidence := roundTo3 (qmin (qmul m (qabs s)) (q 1 1))
          score := roundTo3 s
          magnitude := roundTo3 m
          processedBy := "google-cloud-nlp" } := by
      unfold analyzeEmotion
      rw [if_pos hv]
    rw [hval]
    have hc : qmin (qmul m (qabs s)) (q 1 1) = min (m * |s|) 1 := by
      rw [qmin_eq, qmul_eq, qabs_eq, q_eq]
      norm_num
    refine ⟨roundTo3_neg_one_le (by linarith), roundTo3_le_one hs2, roundTo3_nonneg hm,
      ?_, ?_⟩
    · dsimp only
      rw [hc]
      exact roundTo3_nonneg (le_min (mul_nonneg hm (abs_nonneg s)) (by norm_num))
    · dsimp only
      rw [hc]
      exact roundTo3_le_one (min_le_right _ _)
  · intro text
    refine ⟨fallback_magnitude_pos text, (fallback_confidence_bounds text).1,
      (fallback_confidence_bounds text).2, fun hk => ?_⟩
    rw [fallback_score_eq]
    obtain ⟨h1, h2⟩ := fallbackSentimentScore_bounds (fallbackScan (strToLower text)).1
      (fallbackScan (strToLower text)).2 hk
    exact ⟨roundTo3_neg_one_le h1, roundTo3_le_one h2⟩

/-- Witness for `classifier_range_invariants` at a concrete in-range
provider output and a concrete fallback run. -/
theorem classifier_range_invariants_witness :
    (0 ≤ (analyzeEmotion (ProviderOutcome.available (q (-7) 10) (q 6 5)) "x").confidence
      ∧ (analyzeEmotion (ProviderOutcome.available (q (-7) 10) (q 6 5)) "x").confidence ≤ 1)
    ∧ (-1 ≤ (fallbackEmotionAnalysis "sad").score ∧ (fallbackEmotionAnalysis "sad").score ≤ 1) := by
  constructor
  · have h := classifier_range_invariants.1 (q (-7) 10) (q 6 5) "x"
      (by decide) (by decide) (by decide) (by decide)
    exact ⟨h.2.2.2.1, h.2.2.2.2⟩
  · exact (classifier_range_invariants.2 "sad").2.2.2 (by decide)

/-- C5 counterexample: for the fallback input
`"happy excited great awesome"` four joy keywords match, and the
returned `sentimentScore` is `0.3 + 4·0.2 = 1.1`, strictly outside the
documented range `[-1, 1]`. -/
theorem classifier_range_counterexample :
    (analyzeEmotion ProviderOutcome.unreachable "happy excited great awesome").score = q 11 10
    ∧ (1 : ℚ) < (analyzeEmotion ProviderOutcome.unreachable "happy excited great awesome").score
    ∧ (analyzeEmotion ProviderOutcome.unreachable "happy excited great awesome").processedBy
      = "local-fallback" := by
  refine ⟨by decide, by decide, by decide⟩

/-- Helper: removing a witnessed non-matching element makes `filter`
strictly shorter. -/
theorem length_filter_lt {α : Type} {p : α → Bool} {l : List α} (x : α)
    (hx : x ∈ l) (hp : p x = false) : (l.filter p).length < l.length := by
  induction l with
  | nil => cases hx
  | cons a t ih =>
    rcases List.mem_cons.1 hx with rfl | hmem
    · rw [List.filter_cons, hp]
      exact Nat.lt_succ_of_le (List.length_filter_le _ _)
    · rw [List.filter_cons]
      by_cases hpa : p a = true
      · rw [if_pos hpa]
        exact Nat.succ_lt_succ (ih hmem)
      · rw [if_neg hpa]
        exact (ih hmem).trans (Nat.lt_succ_self _)

/-- Helper: `addFCMToken` never leaves more than 5 entries. -/
theorem addFCMToken_length_le (tokens : List FCMToken) (token dt : String)
    (di : Option String) (now : Nat) :
    (addFCMToken tokens token dt di now).length ≤ 5 := by
  simp only [addFCMToken]
  split
  · rw [List.length_drop]
    omega
  · omega

/-- Helper: `addFCMToken` keeps the token values duplicate-free. -/
theorem addFCMToken_nodup (tokens : List FCMToken) (token dt : String)
    (di : Option String) (now : Nat) (h : (tokens.map FCMToken.token).Nodup) :
    ((addFCMToken tokens token dt di now).map FCMToken.token).Nodup := by
  have hkept : ((tokens.filter (fun t => t.token ≠ token)).map FCMToken.token).Nodup :=
    h.sublist ((List.filter_sublist tokens).map FCMToken.token)
  have hnotin : token ∉ (tokens.filter (fun t => t.token ≠ token)).map FCMToken.token := by
    intro hmem
    rcases List.mem_map.1 hmem with ⟨x, hx, hxeq⟩
    rcases List.mem_filter.1 hx with ⟨_, hxp⟩
    have hxp' : x.token ≠ token := by simpa using hxp
    exact hxp' hxeq
  have happ : (((tokens.filter (fun t => t.token ≠ token)) ++
      [({ token := token, deviceType := dt, deviceId := di, isActive := true,
          lastUsed := now } : FCMToken)]).map FCMToken.token).Nodup := by
    rw [List.map_append]
    refine List.nodup_append.2 ⟨hkept, by simp, ?_⟩
    intro a ha hb
    simp only [List.map_cons, List.map_nil, List.mem_singleton] at hb
    exact hnotin (hb ▸ ha)
  simp only [addFCMToken]
  split
  · rw [List.map_drop]
    exact happ.sublist (List.drop_sublist _ _)
  · exact happ

/-- Helper: re-adding an existing token value of an at-capacity list is a
pure upsert: the old entry is removed, the fresh active entry appended,
and no eviction happens. -/
theorem addFCMToken_existing (tokens : List FCMToken) (token dt : String)
    (di : Option String) (now : Nat)
    (htok : token ∈ tokens.map FCMToken.token) (hlen : tokens.length ≤ 5) :
    addFCMToken tokens token dt di now =
      tokens.filter (fun t => t.token ≠ token) ++
        [{ token := token, deviceType := dt, deviceId := di, isActive := true,
           lastUsed := now }] := by
  rcases List.mem_map.1 htok with ⟨x, hx, hxeq⟩
  have hlt : (tokens.filter (fun t => t.token ≠ token)).length < tokens.length :=
    length_filter_lt x hx (by simp [hxeq])
  simp only [addFCMToken]
  rw [if_neg]
  simp only [List.length_append, List.length_cons, List.length_nil]
  omega

/-- Helper: adding a token value not yet present. -/
theorem addFCMToken_fresh (tokens : List FCMToken) (token dt : String)
    (di : Option String) (now : Nat) (h : token ∉ tokens.map FCMToken.token) :
    (addFCMToken tokens token dt di now).map FCMToken.token =
      (tokens.map FCMToken.token ++ [token]).drop
        ((tokens.map FCMToken.token ++ [token]).length - 5) := by
  have hfil : tokens.filter (fun t => t.token ≠ token) = tokens := by
    refine List.filter_eq_self.2 (fun a ha => ?_)
    simp only [ne_eq, decide_eq_true_eq]
    intro heq
    exact h (heq ▸ List.mem_map_of_mem FCMToken.token ha)
  simp only [addFCMToken]
  rw [hfil]
  have hmap : (tokens ++ [(⟨token, dt, di, true, now⟩ : FCMToken)]).map FCMToken.token =
      tokens.map FCMToken.token ++ [token] := by
    rw [List.map_append]
    rfl
  split
  · rw [List.map_drop, hmap]
    congr 1
    simp only [← hmap, List.length_map]
  · rw [hmap]
    have hle : (tokens.map FCMToken.token ++ [token]).length ≤ 5 := by
      simp only [← hmap, List.length_map]
      omega
    rw [Nat.sub_eq_zero_of_le hle, List.drop_zero]

/-- Helper: keeping the last five then appending and keeping the last
five again is the same as appending and keeping the last five. -/
theorem lastN_append_lastN (X rest : List String) :
    lastN 5 (lastN 5 X ++ rest) = lastN 5 (X ++ rest) := by
  rcases le_or_lt X.length 5 with h5 | h5
  · have hX : lastN 5 X = X := by
      rw [lastN, Nat.sub_eq_zero_of_le h5, List.drop_zero]
    rw [hX]
  · have hA : (lastN 5 X).length = 5 := by
      rw [lastN, List.length_drop]
      omega
    have hsplit : X = X.take (X.length - 5) ++ lastN 5 X :=
      (List.take_append_drop (X.length - 5) X).symm
    have hT : (X.take (X.length - 5)).length = X.length - 5 := by
      rw [List.length_take]
      omega
    calc lastN 5 (lastN 5 X ++ rest)
        = (lastN 5 X ++ rest).drop ((lastN 5 X ++ rest).length - 5) := rfl
      _ = (lastN 5 X ++ rest).drop rest.length := by
          rw [List.length_append, hA]
          congr 1
          omega
      _ = (X.take (X.length - 5)).drop ((X ++ rest).length - 5)
          ++ (lastN 5 X ++ rest).drop
              (((X ++ rest).length - 5) - (X.take (X.length - 5)).length) := by
          have hnil : (X.take (X.length - 5)).drop ((X ++ rest).length - 5) = [] :=
            List.drop_eq_nil_of_le (by rw [hT, List.length_append]; omega)
          rw [hnil, List.nil_append, hT, List.length_append]
          congr 1
          omega
      _ = (X.take (X.length - 5) ++ (lastN 5 X ++ rest)).drop ((X ++ rest).length - 5) :=
          (List.drop_append_eq_append_drop).symm
      _ = lastN 5 (X ++ rest) := by
          rw [lastN, lastN, ← List.append_assoc, List.take_append_drop]

/-- Helper: the tokens left after a run of distinct `addToken` calls are
exactly the last five of (starting tokens ++ calls). -/
theorem addManyFrom_map (calls : List String) :
    ∀ (tokens : List FCMToken) (t : Nat),
      ((tokens.map FCMToken.token) ++ calls).Nodup → tokens.length ≤ 5 →
      (addManyFrom tokens calls t).map FCMToken.token =
        lastN 5 ((tokens.map FCMToken.token) ++ calls) := by
  induction calls with
  | nil =>
    intro tokens t _ hlen
    rw [addManyFrom, List.append_nil, lastN, List.length_map,
      Nat.sub_eq_zero_of_le hlen, List.drop_zero]
  | cons c rest ih =>
    intro tokens t hnd hlen
    have hc : c ∉ tokens.map FCMToken.token := by
      have hd := (List.nodup_append.1 hnd).2.2
      intro hmem
      exact hd hmem (List.mem_cons_self c rest)
    have hfresh := addFCMToken_fresh tokens c "web" none t hc
    have hfresh' : (addFCMToken tokens c "web" none t).map FCMToken.token =
        lastN 5 (tokens.map FCMToken.token ++ [c]) := hfresh
    have hsub : ((addFCMToken tokens c "web" none t).map FCMToken.token ++ rest).Sublist
        ((tokens.map FCMToken.token ++ [c]) ++ rest) := by
      rw [hfresh']
      exact (List.drop_sublist _ _).append_right rest
    have hnd2 : ((addFCMToken tokens c "web" none t).map FCMToken.token ++ rest).Nodup := by
      refine List.Nodup.sublist hsub ?_
      rw [List.append_assoc, List.singleton_append]
      exact hnd
    have hlen2 : (addFCMToken tokens c "web" none t).length ≤ 5 :=
      addFCMToken_length_le tokens c "web" none t
    rw [addManyFrom, ih _ (t + 1) hnd2 hlen2, hfresh', lastN_append_lastN,
      List.append_assoc, List.singleton_append]

/-- C6: for one owner, `addFCMToken` (the Device Registry `addToken`)
keeps at most 5 entries and never two entries with the same token value;
re-adding an existing token value of an at-capacity list upserts it
(fresh `isActive = true` / `lastUsed`, old entry removed, no duplicate,
no eviction); and after any `N ≥ 5` distinct calls starting from an
empty registry exactly 5 tokens remain — the 5 most recently added, the
oldest evicted. -/
theorem device_registry_capacity :
    (∀ (tokens : List FCMToken) (token dt : String) (di : Option String) (now : Nat),
      (addFCMToken tokens token dt di now).length ≤ 5)
    ∧ (∀ (tokens : List FCMToken) (token dt : String) (di : Option String) (now : Nat),
        (tokens.map FCMToken.token).Nodup →
        ((addFCMToken tokens token dt di now).map FCMToken.token).Nodup)
    ∧ (∀ (tokens : List FCMToken) (token dt : String) (di : Option String) (now : Nat),
        token ∈ tokens.map FCMToken.token → tokens.length ≤ 5 →
        addFCMToken tokens token dt di now =
          tokens.filter (fun t => t.token ≠ token) ++
            [{ token := token, deviceType := dt, deviceId := di, isActive := true,
               lastUsed := now }])
    ∧ (∀ calls : List String, calls.Nodup → 5 ≤ calls.length →
        (addManyFrom [] calls 0).map FCMToken.token = lastN 5 calls
        ∧ ((addManyFrom [] calls 0).map FCMToken.token).length = 5) := by
  refine ⟨addFCMToken_length_le, addFCMToken_nodup, addFCMToken_existing, ?_⟩
  intro calls hnd hlen
  have h := addManyFrom_map calls [] 0 (by simpa using hnd) (by simp)
  rw [List.map_nil, List.nil_append] at h
  refine ⟨h, ?_⟩
  rw [h, lastN, List.length_drop]
  omega

/-- Witness for `device_registry_capacity`: six distinct calls leave the
last five tokens; re-adding token `"t2"` of a full registry updates it
in place. -/
theorem device_registry_capacity_witness :
    (addManyFrom [] ["t1", "t2", "t3", "t4", "t5", "t6"] 0).map FCMToken.token
      = ["t2", "t3", "t4", "t5", "t6"]
    ∧ addFCMToken
        [{ token := "a", deviceType := "web", deviceId := none, isActive := true, lastUsed := 0 },
         { token := "b", deviceType := "web", deviceId := none, isActive := false, lastUsed := 1 }]
        "a" "ios" none 7
      = [{ token := "b", deviceType := "web", deviceId := none, isActive := false, lastUsed := 1 },
         { token := "a", deviceType := "ios", deviceId := none, isActive := true, lastUsed := 7 }] := by
  constructor
  · have h := (device_registry_capacity.2.2.2 ["t1", "t2", "t3", "t4", "t5", "t6"]
      (by decide) (by decide)).1
    rw [h]
    decide
  · have h := device_registry_capacity.2.2.1
      [{ token := "a", deviceType := "web", deviceId := none, isActive := true, lastUsed := 0 },
       { token := "b", deviceType := "web", deviceId := none, isActive := false, lastUsed := 1 }]
      "a" "ios" none 7 (by decide) (by decide)
    rw [h]
    decide

/-- Helper: the pipeline reports a profile append only when its own
`> 0.5` confidence gate passed. -/
theorem pipeline_historyAppended_imp (env : PipelineEnv) (req : SendMessageRequest)
    (h : (sendMessagePipeline env req).historyAppended = true) :
    historyAppendedB env req = true := by
  revert h
  cases hm : env.messageSaveOk <;> cases hp : env.populateOk <;> cases hr : env.roomSaveOk <;>
    simp [sendMessagePipeline, hm, hp, hr]

/-- C8 as amended: in the `/analyze-with-support` route the profile
history is appended iff confidence exceeds 0.3 and `dominantEmotion` is
overwritten iff confidence exceeds 0.7; the history is bounded at 100
with FIFO eviction of the oldest entry; but in the chat message pipeline
the append gate is confidence > 0.5 (not 0.3), and that path never
touches `dominantEmotion`. -/
theorem profile_update_gates :
    (∀ (p : EmotionalProfile) (e : String) (c s : ℚ) (now : Nat),
      (c > q 3 10 →
        (applyProfileUpdate p e c s now).emotionHistory =
          addEmotionToHistory p.emotionHistory e c now)
      ∧ (¬ c > q 3 10 → applyProfileUpdate p e c s now = p)
      ∧ (c > q 7 10 → (applyProfileUpdate p e c s now).dominantEmotion = e)
      ∧ (¬ c > q 7 10 →
          (applyProfileUpdate p e c s now).dominantEmotion = p.dominantEmotion))
    ∧ (∀ (h : List EmotionEntry) (e : String) (c : ℚ) (now : Nat),
        (h.length ≤ 100 → (addEmotionToHistory h e c now).length ≤ 100)
        ∧ (h.length < 100 →
            addEmotionToHistory h e c now = h ++ [{ emotion := e, confidence := c, timestamp := now }])
        ∧ (h.length = 100 →
            addEmotionToHistory h e c now =
              h.tail ++ [{ emotion := e, confidence := c, timestamp := now }]))
    ∧ (∀ (env : PipelineEnv) (req : SendMessageRequest),
        (sendMessagePipeline env req).historyAppended = true →
        ∃ ed, pipelineEmotion env req = some ed ∧ ed.confidence > q 1 2) := by
  refine ⟨?_, ?_, ?_⟩
  · intro p e c s now
    refine ⟨fun h3 => ?_, fun h3 => ?_, fun h7 => ?_, fun h7 => ?_⟩
    · simp only [applyProfileUpdate, if_pos h3]
      split <;> rfl
    · simp only [applyProfileUpdate, if_neg h3]
    · have h3 : c > q 3 10 := lt_trans (by decide) h7
      simp only [applyProfileUpdate, if_pos h3, if_pos h7]
    · by_cases h3 : c > q 3 10
      · simp only [applyProfileUpdate, if_pos h3, if_neg h7]
      · simp only [applyProfileUpdate, if_neg h3]
  · intro h e c now
    refine ⟨fun hle => ?_, fun hlt => ?_, fun heq => ?_⟩
    · simp only [addEmotionToHistory]
      split
      · rw [List.length_tail, List.length_append]
        simp only [List.length_cons, List.length_nil]
        omega
      · rename_i hgt
        rw [List.length_append] at hgt ⊢
        simp only [List.length_cons, List.length_nil] at hgt ⊢
        omega
    · simp only [addEmotionToHistory]
      rw [if_neg]
      rw [List.length_append]
      simp only [List.length_cons, List.length_nil]
      omega
    · cases h with
      | nil => simp at heq
      | cons a t =>
        simp only [List.length_cons] at heq
        simp only [addEmotionToHistory]
        rw [if_pos]
        · rfl
        · rw [List.length_append]
          simp only [List.length_cons, List.length_nil]
          omega
  · intro env req h
    have hb := pipeline_historyAppended_imp env req h
    simp only [historyAppendedB, Bool.and_eq_true] at hb
    rcases hpe : pipelineEmotion env req with _ | ed
    · rw [hpe] at hb
      simp at hb
    · refine ⟨ed, rfl, ?_⟩
      rw [hpe] at hb
      exact of_decide_eq_true hb.1.1

/-- Witness for `profile_update_gates` at concrete confidences 0.4 (no
dominant update, history appended via the 0.3 gate) and a 100-entry
history receiving one more entry. -/
theorem profile_update_gates_witness :
    ((applyProfileUpdate
        { dominantEmotion := "neutral", averageSentiment := 0, emotionHistory := [] }
        "sadness" (q 2 5) (q (-1) 2) 9).emotionHistory =
      addEmotionToHistory [] "sadness" (q 2 5) 9)
    ∧ ((applyProfileUpdate
        { dominantEmotion := "neutral", averageSentiment := 0, emotionHistory := [] }
        "sadness" (q 2 5) (q (-1) 2) 9).dominantEmotion = "neutral")
    ∧ (addEmotionToHistory
        (List.replicate 100 { emotion := "joy", confidence := q 4 5, timestamp := 0 })
        "fear" (q 3 5) 3 =
      (List.replicate 100
          { emotion := "joy", confidence := q 4 5, timestamp := 0 }).tail ++
        [{ emotion := "fear", confidence := q 3 5, timestamp := 3 }]) := by
  refine ⟨?_, ?_, ?_⟩
  · exact ((profile_update_gates.1 _ "sadness" (q 2 5) (q (-1) 2) 9).1 (by decide))
  · exact ((profile_update_gates.1 _ "sadness" (q 2 5) (q (-1) 2) 9).2.2.2 (by decide))
  · exact ((profile_update_gates.2.1 _ "fear" (q 3 5) 3).2.2 (by simp))

/-- C8 counterexample: in the chat pipeline, a classified and stored
sample with confidence `0.4` — strictly above the claimed `0.3` gate,
with the author found and the profile save healthy — does not get
appended to the profile history, because the chat path gates at `0.5`. -/
theorem profile_update_gates_counterexample :
    ((analyzeEmotion (ProviderOutcome.available (q (-1) 2) (q 4 5)) "hello").confidence = q 2 5)
    ∧ (q 2 5 > q 3 10)
    ∧ ((sendMessagePipeline
        ⟨ProviderOutcome.available (q (-1) 2) (q 4 5), true, true, ["t1"], true,
         true, true, true, true, true, true, [], true⟩
        ⟨"hello", "text"⟩).historyAppended = false)
    ∧ ((sendMessagePipeline
        ⟨ProviderOutcome.available (q (-1) 2) (q 4 5), true, true, ["t1"], true,
         true, true, true, true, true, true, [], true⟩
        ⟨"hello", "text"⟩).status = 201) := by
  refine ⟨by decide, by decide, by decide, by decide⟩

end Emochat
